import Mathlib

/-!
Verification development for the promo-code bot (`src/app.py`).

The sqlite table `promo_codes` is embedded as a list of `PromoCode` rows.
Timestamps are natural numbers, the `TEXT` columns are `String`, nullable
columns are `Option`-valued.  Randomness (`random.choices`) is embedded as a
stream `draws : Nat → Nat` of raw draws, each reduced modulo the alphabet
size; database insert outcomes that depend on the environment (the
`sqlite3.IntegrityError` branches of `create_promo_code_for_user`) are
embedded as an oracle `oracle : Nat → InsertOutcome` indexed by retry-loop
iteration.  Unbounded `while True` loops are embedded with explicit fuel:
a `none` result means the fuel was exhausted, i.e. the loop is still running.
-/

/-- Configuration constant `CODE_LENGTH = 8` from `app.py`. -/
def CODE_LENGTH : Nat := 8

/-- Configuration constant `CODE_PREFIX = "DC"` from `app.py`. -/
def CODE_PREFIX : String := "DC"

/-- Configuration constant `DISCOUNT_TEMPLATE = "10%"` from `app.py`. -/
def DISCOUNT_TEMPLATE : String := "10%"

/-- Retry bound `MAX_ATTEMPTS = 10` of `create_promo_code_for_user`. -/
def MAX_ATTEMPTS : Nat := 10

/-- One row of the `promo_codes` table (schema in `init_db`).
`issued_to` is declared `NOT NULL` by the schema, but is modelled as an
`Option` so that the SQL null-ness tests (`IS NOT NULL`, the defensive
`if not issued_to` check of `apply_promo_code`) are represented honestly. -/
structure PromoCode where
  id : Nat
  code : String
  discount_value : String
  is_used : Bool
  created_at : Nat
  used_at : Option Nat
  issued_to : Option String
  issued_at : Option Nat
  used_by : Option String
deriving DecidableEq, Repr

/-- `SELECT id FROM promo_codes WHERE code = ?` used as an existence test
(in `generate_unique_code` and in the pre-check of
`create_promo_code_for_user`). -/
def exists_code (st : List PromoCode) (c : String) : Bool :=
  st.any (fun r => r.code = c)

/-- The alphabet `string.ascii_uppercase + string.digits` used by
`generate_unique_code`. -/
def codeAlphabet : List Char :=
  "ABCDEFGHIJKLMNOPQRSTUVWXYZ0123456789".toList

/-- `random.choices(string.ascii_uppercase + string.digits, k=CODE_LENGTH)`
joined into a string: the raw draw stream is consumed starting at index `i`,
each draw reduced modulo the alphabet size. -/
def randomPart (draws : Nat → Nat) (i : Nat) : String :=
  String.mk ((List.range CODE_LENGTH).map
    (fun j => codeAlphabet.getD (draws (i + j) % codeAlphabet.length) 'A'))

/-- `code = f"{CODE_PREFIX}{random_part}" if CODE_PREFIX else random_part`
in `generate_unique_code`. -/
def candidateCode (draws : Nat → Nat) (i : Nat) : String :=
  if CODE_PREFIX = "" then randomPart draws i
  else CODE_PREFIX ++ randomPart draws i

/-- The `while True` loop of `generate_unique_code`: draw a candidate, return
it if it is not yet in the store, otherwise draw again.  The loop is unbounded
in the source; `fuel` bounds the embedding, `none` meaning the loop has not
returned within `fuel` iterations.  On success the next unused draw-stream
index is returned alongside the code. -/
def generate_unique_code :
    Nat → (Nat → Nat) → Nat → List PromoCode → Option (String × Nat)
  | 0, _, _, _ => none
  | fuel + 1, draws, i, st =>
    let code := candidateCode draws i
    if exists_code st code then
      generate_unique_code fuel draws (i + CODE_LENGTH) st
    else
      some (code, i + CODE_LENGTH)

/-- Outcome of one `INSERT` attempt in `create_promo_code_for_user`,
as classified by its exception handlers: success, a
`UNIQUE constraint failed: promo_codes.code` integrity error, a
`NOT NULL constraint failed` integrity error, any other
`sqlite3.IntegrityError`, or any other exception. -/
inductive InsertOutcome where
  | ok
  | uniquenessViolation
  | notNullViolation
  | otherIntegrityError
  | otherException
deriving DecidableEq, Repr

/-- The row inserted by `create_promo_code_for_user` on success:
`INSERT INTO promo_codes (code, discount_value, created_at, issued_to,
issued_at) VALUES (...)`; `is_used` defaults to `FALSE`, `used_at` and
`used_by` to `NULL`, and `id` autoincrements. -/
def newPromoRow (st : List PromoCode) (code user : String) (now : Nat) :
    PromoCode :=
  { id := st.length + 1
    code := code
    discount_value := DISCOUNT_TEMPLATE
    is_used := false
    created_at := now
    used_at := none
    issued_to := some user
    issued_at := some now
    used_by := none }

/-- The `while attempts < MAX_ATTEMPTS` loop of `create_promo_code_for_user`,
recursing on the remaining attempts.  `iter` numbers the loop iterations (for
the oracle), `i` is the current draw-stream index.  The result is `none` when
`generate_unique_code` exhausted its fuel (the source loop would still be
running); otherwise `some (res, st')` where `res = some (code, discount)` on
success and `res = none` for the Python `return None, None`. -/
def createLoop (user : String) (draws : Nat → Nat)
    (oracle : Nat → InsertOutcome) (fuel now : Nat) :
    Nat → Nat → Nat → List PromoCode →
      Option (Option (String × String) × List PromoCode)
  | 0, _, _, st => some (none, st)
  | remaining + 1, iter, i, st =>
    match generate_unique_code fuel draws i st with
    | none => none
    | some (code, i') =>
      if exists_code st code then
        createLoop user draws oracle fuel now remaining (iter + 1) i' st
      else
        match oracle iter with
        | .ok =>
          some (some (code, DISCOUNT_TEMPLATE),
                st ++ [newPromoRow st code user now])
        | .uniquenessViolation =>
          createLoop user draws oracle fuel now remaining (iter + 1) i' st
        | .notNullViolation => some (none, st)
        | .otherIntegrityError => some (none, st)
        | .otherException => some (none, st)

/-- `create_promo_code_for_user(user_name)`: run the retry loop with
`MAX_ATTEMPTS` attempts, starting at iteration 0 and draw index 0. -/
def create_promo_code_for_user (user : String) (draws : Nat → Nat)
    (oracle : Nat → InsertOutcome) (fuel now : Nat) (st : List PromoCode) :
    Option (Option (String × String) × List PromoCode) :=
  createLoop user draws oracle fuel now MAX_ATTEMPTS 0 0 st

/-- `has_user_received_code(user_name)`:
`SELECT code FROM promo_codes WHERE issued_to = ?` is non-empty. -/
def has_user_received_code (user : String) (st : List PromoCode) : Bool :=
  st.any (fun r => r.issued_to = some user)

/-- `find_by_code`: `SELECT ... FROM promo_codes WHERE code = ?`, first row. -/
def find_by_code (c : String) (st : List PromoCode) : Option PromoCode :=
  st.find? (fun r => r.code = c)

/-- Python truthiness of the fetched `issued_to` column: falsy when the
column is NULL or the empty string (`if not issued_to`). -/
def optStrFalsy : Option String → Bool
  | none => true
  | some s => s = ""

/-- Failure message of `apply_promo_code` when the code row is absent. -/
def MSG_CODE_NOT_FOUND : String := "Код не найден"

/-- Failure message of `apply_promo_code` when `issued_to` is falsy. -/
def MSG_NOT_ISSUED : String := "Код не был выдан пользователю"

/-- Failure message of `apply_promo_code` when `is_used` is already set. -/
def MSG_ALREADY_USED : String := "Код уже использован"

/-- Success message of `apply_promo_code`. -/
def applySuccessMessage (code discount : String) : String :=
  "✅ Код \x27" ++ code ++ "\x27 на скидку " ++ discount ++
    " успешно применен!"

/-- The `UPDATE promo_codes SET is_used = TRUE, used_at = ?, used_by = ?
WHERE code = ?` statement of `apply_promo_code`. -/
def mark_used (code : String) (now : Nat) (u : Option String)
    (st : List PromoCode) : List PromoCode :=
  st.map fun r =>
    if r.code = code then
      { r with is_used := true, used_at := some now, used_by := u }
    else r

/-- `apply_promo_code(code, applied_by_user_id=None)`: look the code up,
fail with the corresponding message if absent / not issued / already used,
otherwise mark it used and return the success message.  Returns the
`(success, message)` pair together with the resulting store. -/
def apply_promo_code (code : String) (applied_by : Option String) (now : Nat)
    (st : List PromoCode) : (Bool × String) × List PromoCode :=
  match find_by_code code st with
  | none => ((false, MSG_CODE_NOT_FOUND), st)
  | some r =>
    if optStrFalsy r.issued_to then ((false, MSG_NOT_ISSUED), st)
    else if r.is_used then ((false, MSG_ALREADY_USED), st)
    else ((true, applySuccessMessage code r.discount_value),
          mark_used code now applied_by st)

/-- The read phase of `apply_promo_code`: the `SELECT` plus the three checks,
up to but not including the `UPDATE`.  This is the state of one redeeming
caller at the point between the two SQL statements of the source. -/
inductive ReadOutcome where
  | notFound
  | notIssued
  | alreadyUsed
  | proceed (discount : String)
deriving DecidableEq, Repr

/-- Read phase of `apply_promo_code` (its `SELECT` and the checks on the
fetched row). -/
def apply_read (code : String) (st : List PromoCode) : ReadOutcome :=
  match find_by_code code st with
  | none => .notFound
  | some r =>
    if optStrFalsy r.issued_to then .notIssued
    else if r.is_used then .alreadyUsed
    else .proceed r.discount_value

/-- Completion of `apply_promo_code` from a read outcome: the failure
returns, or the `UPDATE` (run against the store as it is at write time). -/
def apply_finish (code : String) (u : Option String) (now : Nat)
    (st : List PromoCode) (o : ReadOutcome) :
    (Bool × String) × List PromoCode :=
  match o with
  | .notFound => ((false, MSG_CODE_NOT_FOUND), st)
  | .notIssued => ((false, MSG_NOT_ISSUED), st)
  | .alreadyUsed => ((false, MSG_ALREADY_USED), st)
  | .proceed d =>
    ((true, applySuccessMessage code d), mark_used code now u st)

/-- The interleaving of two `apply_promo_code` calls on the same code in
which both callers run their `SELECT`-and-check read phase before either
runs its `UPDATE` (the race window the source leaves open: nothing between
the two statements is atomic).  Returns both `(success, message)` results
and the final store. -/
def race_redeem (code : String) (u1 u2 : Option String) (t1 t2 : Nat)
    (st : List PromoCode) :
    (Bool × String) × (Bool × String) × List PromoCode :=
  let o1 := apply_read code st
  let o2 := apply_read code st
  let p1 := apply_finish code u1 t1 st o1
  let p2 := apply_finish code u2 t2 p1.2 o2
  (p1.1, p2.1, p2.2)

/-- Result of the `get_promo` branch of `button_handler` (the Issue
operation of the spec). -/
inductive IssueResult where
  | alreadyIssued
  | generationFailed
  | issued (code discount : String)
deriving DecidableEq, Repr

/-- The `get_promo` branch of `button_handler` for a subscribed user:
if `has_user_received_code` then tell the user they already got a code
(store untouched); otherwise `create_promo_code_for_user`, reporting
failure when it returns `(None, None)`. -/
def issue (user : String) (draws : Nat → Nat) (oracle : Nat → InsertOutcome)
    (fuel now : Nat) (st : List PromoCode) :
    Option (IssueResult × List PromoCode) :=
  if has_user_received_code user st then some (.alreadyIssued, st)
  else
    match create_promo_code_for_user user draws oracle fuel now st with
    | none => none
    | some (none, st') => some (.generationFailed, st')
    | some (some (c, d), st') => some (.issued c d, st')

/-- Aggregate counters of `admin_stats`. -/
structure Stats where
  total : Nat
  issued : Nat
  used : Nat
deriving DecidableEq, Repr

/-- The three `SELECT COUNT(*)` queries of `admin_stats`:
all rows; rows `WHERE issued_to IS NOT NULL`; rows `WHERE is_used = TRUE`. -/
def admin_stats (st : List PromoCode) : Stats :=
  { total := st.length
    issued := (st.filter (fun r => r.issued_to.isSome)).length
    used := (st.filter (fun r => r.is_used)).length }

/-- The `Активных: {issued - used}` line of the stats message. -/
def statsActive (s : Stats) : Int :=
  (s.issued : Int) - (s.used : Int)

/-- Modelled from the spec (refinement side of claim C8): `Stats()` reports
`total` = number of rows, `issued` = number of rows with non-null
`issued_to`, `used` = number of rows with `is_used` true. -/
def specStatsReport (st : List PromoCode) : Stats :=
  { total := st.length
    issued := (st.filter (fun r => r.issued_to ≠ none)).length
    used := (st.filter (fun r => r.is_used = true)).length }

/-- The per-row part of the spec invariant: `is_used = true` implies
`used_at` and `used_by` are non-null; `is_used = false` implies both are
null. -/
def rowInvariant (r : PromoCode) : Bool :=
  if r.is_used then r.used_at.isSome && r.used_by.isSome
  else r.used_at.isNone && r.used_by.isNone

/-- The spec's state invariant over the whole store. -/
def storeInvariant (st : List PromoCode) : Bool :=
  st.all rowInvariant

/-- Is this character an uppercase letter or a digit? -/
def isUpperAlnum (c : Char) : Bool :=
  ('A' ≤ c && c ≤ 'Z') || ('0' ≤ c && c ≤ '9')

/-- A one-row store whose single code is the one that the constant draw
stream `fun _ => 0` always produces (`"DC"` + eight times `'A'`). -/
def collidingStore : List PromoCode :=
  [{ id := 1
     code := "DCAAAAAAAA"
     discount_value := "10%"
     is_used := false
     created_at := 0
     used_at := none
     issued_to := some "u0"
     issued_at := some 0
     used_by := none }]

/-- A freshly issued, unused promo-code row. -/
def freshRow : PromoCode :=
  { id := 1
    code := "DCAAAAAAAA"
    discount_value := "10%"
    is_used := false
    created_at := 0
    used_at := none
    issued_to := some "alice"
    issued_at := some 0
    used_by := none }

/-- A one-row store holding a freshly issued, unused code. -/
def freshStore : List PromoCode := [freshRow]

/-- The store left behind by a first successful `issue` call for user `"u"`
on the empty store with the identity draw stream. -/
def issuedOnceStore : List PromoCode :=
  [{ id := 1
     code := "DCABCDEFGH"
     discount_value := "10%"
     is_used := false
     created_at := 0
     used_at := none
     issued_to := some "u"
     issued_at := some 0
     used_by := none }]

/-- `create_promo_code_for_user` never returns within any amount of fuel:
the embedding of a non-terminating Issue call. -/
def issueNeverReturns (user : String) (draws : Nat → Nat)
    (oracle : Nat → InsertOutcome) (now : Nat) (st : List PromoCode) : Prop :=
  ∀ fuel, create_promo_code_for_user user draws oracle fuel now st = none

/-- Store after issuing a first code to `"u1"` (scenario for claim C8). -/
def scenarioStore1 : List PromoCode :=
  ((create_promo_code_for_user "u1" (fun n => n) (fun _ => .ok) 5 0
      []).getD (none, [])).2

/-- Store after issuing a second code to `"u2"`. -/
def scenarioStore2 : List PromoCode :=
  ((create_promo_code_for_user "u2" (fun n => n) (fun _ => .ok) 5 1
      scenarioStore1).getD (none, [])).2

/-- Store after issuing a third code to `"u3"`. -/
def scenarioStore3 : List PromoCode :=
  ((create_promo_code_for_user "u3" (fun n => n) (fun _ => .ok) 5 2
      scenarioStore2).getD (none, [])).2

/-- Store after additionally redeeming the first of the three codes. -/
def scenarioStore : List PromoCode :=
  (apply_promo_code "DCABCDEFGH" (some "staff") 9 scenarioStore3).2

/-! ## Helper lemmas -/

theorem candidateCode_eq (draws : Nat → Nat) (i : Nat) :
    candidateCode draws i = CODE_PREFIX ++ randomPart draws i := by
  simp [candidateCode, CODE_PREFIX]

theorem randomPart_length (draws : Nat → Nat) (i : Nat) :
    (randomPart draws i).length = CODE_LENGTH := by
  simp [randomPart, String.length]

theorem codeAlphabet_getD_upperAlnum :
    ∀ k, k < 36 → isUpperAlnum (codeAlphabet.getD k 'A') = true := by
  decide

theorem randomPart_chars (draws : Nat → Nat) (i : Nat) :
    ∀ ch ∈ (randomPart draws i).toList, isUpperAlnum ch = true := by
  intro ch hch
  simp only [randomPart, String.toList, List.mem_map, List.mem_range] at hch
  obtain ⟨j, _, rfl⟩ := hch
  exact codeAlphabet_getD_upperAlnum _ (Nat.mod_lt _ (by decide))

theorem generate_not_exists (fuel : Nat) (draws : Nat → Nat) (i : Nat)
    (st : List PromoCode) (c : String) (i' : Nat)
    (h : generate_unique_code fuel draws i st = some (c, i')) :
    exists_code st c = false := by
  induction fuel generalizing i with
  | zero => simp [generate_unique_code] at h
  | succ fuel ih =>
    simp only [generate_unique_code] at h
    split at h
    · exact ih _ h
    · next hex =>
      obtain ⟨rfl, rfl⟩ := by simpa using h
      simpa using hex

theorem generate_is_candidate (fuel : Nat) (draws : Nat → Nat) (i : Nat)
    (st : List PromoCode) (c : String) (i' : Nat)
    (h : generate_unique_code fuel draws i st = some (c, i')) :
    ∃ i0, c = candidateCode draws i0 := by
  induction fuel generalizing i with
  | zero => simp [generate_unique_code] at h
  | succ fuel ih =>
    simp only [generate_unique_code] at h
    split at h
    · exact ih _ h
    · obtain ⟨rfl, rfl⟩ := by simpa using h
      exact ⟨i, rfl⟩

theorem createLoop_result (user : String) (draws : Nat → Nat)
    (oracle : Nat → InsertOutcome) (fuel now : Nat) :
    ∀ rem iter i st res st',
      createLoop user draws oracle fuel now rem iter i st = some (res, st') →
      (res = none ∧ st' = st) ∨
        ∃ code, res = some (code, DISCOUNT_TEMPLATE) ∧
          st' = st ++ [newPromoRow st code user now] := by
  intro rem
  induction rem with
  | zero =>
    intro iter i st res st' h
    simp only [createLoop, Option.some.injEq, Prod.mk.injEq] at h
    exact Or.inl ⟨h.1.symm, h.2.symm⟩
  | succ rem ih =>
    intro iter i st res st' h
    cases hgen : generate_unique_code fuel draws i st with
    | none => simp only [createLoop, hgen] at h; exact absurd h (by simp)
    | some p =>
      obtain ⟨code, i'⟩ := p
      simp only [createLoop, hgen] at h
      by_cases hex : exists_code st code = true
      · rw [if_pos hex] at h
        exact ih _ _ _ _ _ h
      · rw [if_neg hex] at h
        cases horc : oracle iter <;>
          simp only [horc, Option.some.injEq, Prod.mk.injEq] at h
        · exact Or.inr ⟨code, h.1.symm, h.2.symm⟩
        · exact ih _ _ _ _ _ h
        · exact Or.inl ⟨h.1.symm, h.2.symm⟩
        · exact Or.inl ⟨h.1.symm, h.2.symm⟩
        · exact Or.inl ⟨h.1.symm, h.2.symm⟩

theorem createLoop_allUnique (user : String) (draws : Nat → Nat)
    (oracle : Nat → InsertOutcome) (fuel now : Nat)
    (horc : ∀ j, j < MAX_ATTEMPTS → oracle j = .uniquenessViolation) :
    ∀ rem iter i st, iter + rem ≤ MAX_ATTEMPTS → ∀ p,
      createLoop user draws oracle fuel now rem iter i st = some p →
      p = (none, st) := by
  intro rem
  induction rem with
  | zero =>
    intro iter i st _ p h
    simp only [createLoop, Option.some.injEq] at h
    exact h.symm
  | succ rem ih =>
    intro iter i st hle p h
    cases hgen : generate_unique_code fuel draws i st with
    | none => simp only [createLoop, hgen] at h; exact absurd h (by simp)
    | some q =>
      obtain ⟨code, i'⟩ := q
      simp only [createLoop, hgen] at h
      by_cases hex : exists_code st code = true
      · rw [if_pos hex] at h
        exact ih (iter + 1) _ _ (by omega) _ h
      · rw [if_neg hex] at h
        rw [horc iter (by omega)] at h
        exact ih (iter + 1) _ _ (by omega) _ h

theorem find_by_code_mark_used (c : String) (now : Nat) (u : Option String)
    (st : List PromoCode) :
    find_by_code c (mark_used c now u st) =
      (find_by_code c st).map
        (fun r =>
          { r with is_used := true, used_at := some now, used_by := u }) := by
  induction st with
  | nil => rfl
  | cons r st ih =>
    simp only [find_by_code, mark_used, List.map_cons, List.find?_cons] at *
    by_cases hc : r.code = c
    · simp [hc]
    · simpa [hc] using ih

theorem apply_promo_code_eq_phases (c : String) (u : Option String) (t : Nat)
    (st : List PromoCode) :
    apply_promo_code c u t st = apply_finish c u t st (apply_read c st) := by
  simp only [apply_promo_code, apply_read]
  cases find_by_code c st with
  | none => rfl
  | some r =>
    by_cases h1 : optStrFalsy r.issued_to
    · simp [h1, apply_finish]
    · by_cases h2 : r.is_used
      · simp [h1, h2, apply_finish]
      · simp [h1, h2, apply_finish]

theorem storeInvariant_mark_used (c : String) (now : Nat) (u : Option String)
    (st : List PromoCode) (hu : u ≠ none)
    (h : storeInvariant st = true) :
    storeInvariant (mark_used c now u st) = true := by
  simp only [storeInvariant, List.all_eq_true] at h ⊢
  intro r hr
  simp only [mark_used, List.mem_map] at hr
  obtain ⟨r0, hr0, rfl⟩ := hr
  by_cases hc : r0.code = c
  · simp only [hc, if_true, rowInvariant, Option.isSome_some, Bool.true_and]
    simpa [Option.isSome_iff_ne_none] using hu
  · simpa [hc] using h r0 hr0

theorem storeInvariant_newRow (st : List PromoCode) (code user : String)
    (now : Nat) (h : storeInvariant st = true) :
    storeInvariant (st ++ [newPromoRow st code user now]) = true := by
  simp only [storeInvariant] at h ⊢
  simp only [List.all_append, h, Bool.true_and]
  rfl

/-! ## Claims -/

/-- Claim C7: every code returned by `generate_unique_code` has length
`len(CODE_PREFIX) + CODE_LENGTH = 10`, starts with the prefix `"DC"`, and
all characters after the prefix are uppercase letters or digits. -/
theorem generated_code_format (fuel : Nat) (draws : Nat → Nat) (i : Nat)
    (st : List PromoCode) (c : String) (i' : Nat)
    (h : generate_unique_code fuel draws i st = some (c, i')) :
    c.length = CODE_PREFIX.length + CODE_LENGTH ∧
      ∃ rest, c = CODE_PREFIX ++ rest ∧ rest.length = CODE_LENGTH ∧
        ∀ ch ∈ rest.toList, isUpperAlnum ch = true := by
  obtain ⟨i0, rfl⟩ := generate_is_candidate fuel draws i st c i' h
  constructor
  · rw [candidateCode_eq, String.length_append, randomPart_length]
  · exact ⟨randomPart draws i0, candidateCode_eq draws i0,
      randomPart_length draws i0, randomPart_chars draws i0⟩

/-- Witness for C7 at a concrete generator run on the empty store. -/
theorem generated_code_format_witness :
    ("DCABCDEFGH" : String).length = CODE_PREFIX.length + CODE_LENGTH ∧
      ∃ rest, ("DCABCDEFGH" : String) = CODE_PREFIX ++ rest ∧
        rest.length = CODE_LENGTH ∧
        ∀ ch ∈ rest.toList, isUpperAlnum ch = true :=
  generated_code_format 1 (fun n => n) 0 [] "DCABCDEFGH" 8 (by decide)

/-- Claim C1: on a code that is issued (`issued_to` truthy) and not yet used,
the first `apply_promo_code` succeeds with the confirmation message carrying
the configured discount value, the row gets `used_at`/`used_by` of that first
call, and a second `apply_promo_code` on the same code returns the
already-used failure and leaves the store (hence `used_at`/`used_by`)
unchanged. -/
theorem redeem_single_use (c : String) (u1 u2 : Option String) (t1 t2 : Nat)
    (st : List PromoCode) (r : PromoCode)
    (hfind : find_by_code c st = some r)
    (hissued : optStrFalsy r.issued_to = false)
    (hfresh : r.is_used = false)
    (hdisc : r.discount_value = DISCOUNT_TEMPLATE) :
    (apply_promo_code c u1 t1 st).1 =
        (true, applySuccessMessage c DISCOUNT_TEMPLATE) ∧
      find_by_code c (apply_promo_code c u1 t1 st).2 =
        some { r with is_used := true, used_at := some t1, used_by := u1 } ∧
      apply_promo_code c u2 t2 (apply_promo_code c u1 t1 st).2 =
        ((false, MSG_ALREADY_USED), (apply_promo_code c u1 t1 st).2) := by
  have h1 : apply_promo_code c u1 t1 st =
      ((true, applySuccessMessage c r.discount_value),
        mark_used c t1 u1 st) := by
    simp [apply_promo_code, hfind, hissued, hfresh]
  have h2 : find_by_code c (mark_used c t1 u1 st) =
      some { r with is_used := true, used_at := some t1, used_by := u1 } := by
    rw [find_by_code_mark_used, hfind]
    rfl
  refine ⟨?_, ?_, ?_⟩
  · rw [h1, hdisc]
  · rw [h1]
    exact h2
  · rw [h1]
    simp [apply_promo_code, h2, hissued]

/-- Witness for C1 on the one-row store `freshStore`. -/
theorem redeem_single_use_witness :
    (apply_promo_code "DCAAAAAAAA" (some "s1") 1 freshStore).1 =
        (true, applySuccessMessage "DCAAAAAAAA" DISCOUNT_TEMPLATE) ∧
      find_by_code "DCAAAAAAAA"
          (apply_promo_code "DCAAAAAAAA" (some "s1") 1 freshStore).2 =
        some { freshRow with
                is_used := true, used_at := some 1, used_by := some "s1" } ∧
      apply_promo_code "DCAAAAAAAA" (some "s2") 2
          (apply_promo_code "DCAAAAAAAA" (some "s1") 1 freshStore).2 =
        ((false, MSG_ALREADY_USED),
          (apply_promo_code "DCAAAAAAAA" (some "s1") 1 freshStore).2) :=
  redeem_single_use "DCAAAAAAAA" (some "s1") (some "s2") 1 2 freshStore
    freshRow (by decide) (by decide) (by decide) (by decide)

/-- Claim C2: once `issue` has issued a code to an identity, every later
`issue` call for that same identity returns the already-issued outcome and
leaves the store unchanged, whatever draw stream, insert oracle, fuel and
clock the later call runs with. -/
theorem issue_once_per_identity (user : String) (draws : Nat → Nat)
    (oracle : Nat → InsertOutcome) (fuel now : Nat) (st : List PromoCode)
    (c d : String) (st' : List PromoCode)
    (h : issue user draws oracle fuel now st = some (.issued c d, st')) :
    ∀ draws' oracle' fuel' now',
      issue user draws' oracle' fuel' now' st' =
        some (.alreadyIssued, st') := by
  intro draws' oracle' fuel' now'
  by_cases hrec : has_user_received_code user st = true
  · simp [issue, hrec] at h
  · simp only [issue, hrec, if_false, Bool.false_eq_true] at h
    cases hc : create_promo_code_for_user user draws oracle fuel now st with
    | none => rw [hc] at h; simp at h
    | some p =>
      obtain ⟨res, st''⟩ := p
      rw [hc] at h
      cases res with
      | none => simp at h
      | some cd =>
        obtain ⟨c0, d0⟩ := cd
        simp only [Option.some.injEq, IssueResult.issued.injEq,
          Prod.mk.injEq] at h
        obtain ⟨⟨rfl, rfl⟩, rfl⟩ := h
        rcases createLoop_result user draws oracle fuel now _ _ _ _ _ _ hc
          with ⟨hn, _⟩ | ⟨code, hcd, rfl⟩
        · exact absurd hn (by simp)
        · have hrec' : has_user_received_code user
              (st ++ [newPromoRow st code user now]) = true := by
            simp [has_user_received_code, newPromoRow]
          simp [issue, hrec']

/-- Witness for C2: after the concrete first issuance to `"u"`, a later
issue call returns the already-issued outcome on the unchanged store. -/
theorem issue_once_per_identity_witness :
    issue "u" (fun n => n + 8) (fun _ => .uniquenessViolation) 1 5
        issuedOnceStore =
      some (.alreadyIssued, issuedOnceStore) :=
  issue_once_per_identity "u" (fun n => n) (fun _ => .ok) 1 0 []
    "DCABCDEFGH" "10%" issuedOnceStore (by decide)
    (fun n => n + 8) (fun _ => .uniquenessViolation) 1 5

/-- Claim C3 counterexample: `apply_promo_code` called with a null redeeming
actor (`applied_by_user_id=None`, the parameter's declared default) marks the
row used while leaving `used_by` NULL, breaking the invariant on a store that
satisfied it. -/
theorem invariant_broken_by_null_actor :
    storeInvariant freshStore = true ∧
      storeInvariant (apply_promo_code "DCAAAAAAAA" none 7 freshStore).2 =
        false := by
  decide

/-- Claim C3 (amended): both operations preserve the invariant — issuance
unconditionally, redemption provided the redeeming actor passed to
`apply_promo_code` is non-null (as at both of its call sites, which pass
`user.name`). -/
theorem operations_preserve_invariant (st : List PromoCode)
    (h : storeInvariant st = true) :
    (∀ user draws oracle fuel now res st',
        create_promo_code_for_user user draws oracle fuel now st =
          some (res, st') →
        storeInvariant st' = true) ∧
      ∀ c u now, u ≠ none →
        storeInvariant (apply_promo_code c u now st).2 = true := by
  constructor
  · intro user draws oracle fuel now res st' hc
    rcases createLoop_result user draws oracle fuel now _ _ _ _ _ _ hc
      with ⟨_, rfl⟩ | ⟨code, _, rfl⟩
    · exact h
    · exact storeInvariant_newRow st code user now h
  · intro c u now hu
    cases hf : find_by_code c st with
    | none => simpa [apply_promo_code, hf] using h
    | some r =>
      by_cases h1 : optStrFalsy r.issued_to
      · simpa [apply_promo_code, hf, h1] using h
      · by_cases h2 : r.is_used
        · simpa [apply_promo_code, hf, h1, h2] using h
        · have := storeInvariant_mark_used c now u st hu h
          simpa [apply_promo_code, hf, h1, h2] using this

/-- Witness for the amended C3 on `freshStore` with a non-null actor. -/
theorem operations_preserve_invariant_witness :
    storeInvariant
        (apply_promo_code "DCAAAAAAAA" (some "staff") 3 freshStore).2 =
      true :=
  (operations_preserve_invariant freshStore (by decide)).2
    "DCAAAAAAAA" (some "staff") 3 (by decide)

/-- Claim C4: when the insert oracle rejects every one of the 10 attempts
with a uniqueness violation, `create_promo_code_for_user` (if its generator
loop returns at all) reports the `(None, None)` failure and leaves the store
unchanged. -/
theorem generation_exhaustion (user : String) (draws : Nat → Nat)
    (oracle : Nat → InsertOutcome) (fuel now : Nat) (st : List PromoCode)
    (horc : ∀ j, j < MAX_ATTEMPTS → oracle j = .uniquenessViolation)
    (p : Option (String × String) × List PromoCode)
    (h : create_promo_code_for_user user draws oracle fuel now st = some p) :
    p = (none, st) :=
  createLoop_allUnique user draws oracle fuel now horc
    MAX_ATTEMPTS 0 0 st (by omega) p h

/-- Witness for C4: ten uniqueness rejections on the empty store produce the
failure result with the store still empty. -/
theorem generation_exhaustion_witness :
    create_promo_code_for_user "u" (fun n => n)
        (fun _ => .uniquenessViolation) 1 0 [] =
      some (none, []) ∧
      ((none : Option (String × String)), ([] : List PromoCode)) =
        (none, []) :=
  ⟨by decide,
    generation_exhaustion "u" (fun n => n) (fun _ => .uniquenessViolation)
      1 0 [] (fun j _ => rfl) (none, []) (by decide)⟩

/-- Claim C5: with attempts still remaining, a fatal insert outcome
(not-null violation, another integrity error, or any other exception) makes
the retry loop return the failure immediately with the store unchanged,
while a uniqueness violation makes it continue with the next attempt. -/
theorem fatal_insert_aborts (user : String) (draws : Nat → Nat)
    (oracle : Nat → InsertOutcome) (fuel now rem iter i : Nat)
    (st : List PromoCode) (code : String) (i' : Nat)
    (hgen : generate_unique_code fuel draws i st = some (code, i')) :
    ((oracle iter = .notNullViolation ∨
        oracle iter = .otherIntegrityError ∨
        oracle iter = .otherException) →
      createLoop user draws oracle fuel now (rem + 1) iter i st =
        some (none, st)) ∧
      (oracle iter = .uniquenessViolation →
        createLoop user draws oracle fuel now (rem + 1) iter i st =
          createLoop user draws oracle fuel now rem (iter + 1) i' st) := by
  have hex : exists_code st code = false :=
    generate_not_exists fuel draws i st code i' hgen
  constructor
  · rintro (ho | ho | ho) <;> simp [createLoop, hgen, hex, ho]
  · intro ho
    simp [createLoop, hgen, hex, ho]

/-- Witness for C5: a not-null violation on the first of ten attempts on the
empty store returns the failure at once. -/
theorem fatal_insert_aborts_witness :
    createLoop "u" (fun n => n) (fun _ => .notNullViolation) 1 0 10 0 0 [] =
      some (none, []) :=
  (fatal_insert_aborts "u" (fun n => n) (fun _ => .notNullViolation)
      1 0 9 0 0 [] "DCABCDEFGH" 8 (by decide)).1 (Or.inl rfl)

/-- Claim C6: `apply_promo_code` on a code with no row returns the not-found
failure with the store unchanged, and more generally every failing outcome
returns the store exactly as it was. -/
theorem redeem_error_exits (c : String) (u : Option String) (now : Nat)
    (st : List PromoCode) :
    (find_by_code c st = none →
        apply_promo_code c u now st = ((false, MSG_CODE_NOT_FOUND), st)) ∧
      ((apply_promo_code c u now st).1.1 = false →
        (apply_promo_code c u now st).2 = st) := by
  constructor
  · intro hf
    simp [apply_promo_code, hf]
  · intro hfail
    cases hf : find_by_code c st with
    | none => simp [apply_promo_code, hf]
    | some r =>
      by_cases h1 : optStrFalsy r.issued_to
      · simp [apply_promo_code, hf, h1]
      · by_cases h2 : r.is_used
        · simp [apply_promo_code, hf, h1, h2]
        · exfalso
          simp [apply_promo_code, hf, h1, h2] at hfail

/-- Witness for C6: redeeming a code that was never inserted (empty store). -/
theorem redeem_error_exits_witness :
    apply_promo_code "NOPE" none 0 [] =
        ((false, MSG_CODE_NOT_FOUND), ([] : List PromoCode)) ∧
      (apply_promo_code "NOPE" none 0 []).2 = ([] : List PromoCode) :=
  ⟨(redeem_error_exits "NOPE" none 0 []).1 (by decide),
    (redeem_error_exits "NOPE" none 0 []).2 (by decide)⟩

/-- Claim C8: `admin_stats` is a pure function of the store and reports
exactly the spec's counters (total rows, rows with non-null `issued_to`,
rows with `is_used`, and `active = issued - used` in the message); in the
concrete scenario of three issuances and one redemption it reports
`total=3, issued=3, used=1, active=2`. -/
theorem stats_report :
    (∀ st, admin_stats st = specStatsReport st) ∧
      admin_stats scenarioStore = { total := 3, issued := 3, used := 1 } ∧
      statsActive (admin_stats scenarioStore) = 2 := by
  refine ⟨fun st => ?_, by decide, by decide⟩
  simp only [admin_stats, specStatsReport, Stats.mk.injEq]
  refine ⟨trivial, ?_, ?_⟩
  · have : ∀ r : PromoCode, r.issued_to.isSome = decide (r.issued_to ≠ none) := by
      intro r
      cases hr : r.issued_to <;> simp [hr]
    simp [this]
  · simp

/-- Claim C9 counterexample: the generator's inner loop is NOT bounded by
the caller's 10-attempt limit.  On a store already holding the only
candidate the draw stream can produce, `create_promo_code_for_user` fails
to return within any amount of fuel — the Issue call does not terminate,
refuting the claim at this concrete store state. -/
theorem issue_nonterminating_on_collision :
    issueNeverReturns "u" (fun _ => 0) (fun _ => .ok) 0 collidingStore := by
  have hgen : ∀ f i,
      generate_unique_code f (fun _ => 0) i collidingStore = none := by
    intro f
    induction f with
    | zero => intro i; rfl
    | succ f ih =>
      intro i
      have hex : exists_code collidingStore
          (candidateCode (fun _ => 0) i) = true := rfl
      simp only [generate_unique_code, hex, if_true]
      exact ih (i + CODE_LENGTH)
  intro fuel
  show createLoop "u" (fun _ => 0) (fun _ => .ok) fuel 0
      MAX_ATTEMPTS 0 0 collidingStore = none
  rw [show MAX_ATTEMPTS = 9 + 1 from rfl]
  simp [createLoop, hgen fuel 0]

/-- Claim C9 (amended): the caller's bound of 10 limits the insert attempts,
and whenever no drawn candidate collides with the store the whole Issue call
terminates; but the generator itself is unbounded, so termination is not
guaranteed for every store state. -/
theorem issue_terminates_without_collision (user : String)
    (draws : Nat → Nat) (oracle : Nat → InsertOutcome) (now : Nat)
    (st : List PromoCode)
    (h : ∀ i, exists_code st (candidateCode draws i) = false) :
    ∃ res, create_promo_code_for_user user draws oracle 1 now st =
      some res := by
  suffices h' : ∀ rem iter i, ∃ res,
      createLoop user draws oracle 1 now rem iter i st = some res by
    exact h' MAX_ATTEMPTS 0 0
  intro rem
  induction rem with
  | zero => intro iter i; exact ⟨(none, st), rfl⟩
  | succ rem ih =>
    intro iter i
    have hgen : generate_unique_code 1 draws i st =
        some (candidateCode draws i, i + CODE_LENGTH) := by
      simp [generate_unique_code, h i]
    cases horc : oracle iter
    all_goals simp only [createLoop, hgen, h i, Bool.false_eq_true,
      if_false, horc]
    case ok => exact ⟨_, rfl⟩
    case uniquenessViolation => exact ih _ _
    case notNullViolation => exact ⟨_, rfl⟩
    case otherIntegrityError => exact ⟨_, rfl⟩
    case otherException => exact ⟨_, rfl⟩

/-- Witness for the amended C9: on the empty store no candidate collides and
the Issue call returns. -/
theorem issue_terminates_without_collision_witness :
    ∃ res, create_promo_code_for_user "u" (fun n => n) (fun _ => .ok)
      1 0 [] = some res :=
  issue_terminates_without_collision "u" (fun n => n) (fun _ => .ok) 0 []
    (fun _ => rfl)

/-- Claim C10 counterexample: in the interleaving where both redeeming
callers run the `SELECT`-and-check phase before either runs the `UPDATE`
(the race window of `apply_promo_code`, which is not an atomic
test-and-set), BOTH calls report success on the same unused code. -/
theorem race_two_successes :
    (race_redeem "DCAAAAAAAA" (some "s1") (some "s2") 1 2 freshStore).1.1 =
        true ∧
      (race_redeem "DCAAAAAAAA" (some "s1") (some "s2") 1 2
          freshStore).2.1.1 = true := by
  decide

/-- Claim C10 (amended): when the two `apply_promo_code` calls on the same
unused code are serialized (the second starts after the first completed),
exactly one succeeds and the other reports the already-used failure; the
two-successes outcome arises only in the non-atomic interleaving. -/
theorem serialized_redeems_one_success (c : String) (u1 u2 : Option String)
    (t1 t2 : Nat) (st : List PromoCode) (r : PromoCode)
    (hfind : find_by_code c st = some r)
    (hissued : optStrFalsy r.issued_to = false)
    (hfresh : r.is_used = false) :
    (apply_promo_code c u1 t1 st).1.1 = true ∧
      (apply_promo_code c u2 t2 (apply_promo_code c u1 t1 st).2).1 =
        (false, MSG_ALREADY_USED) := by
  have h1 : apply_promo_code c u1 t1 st =
      ((true, applySuccessMessage c r.discount_value),
        mark_used c t1 u1 st) := by
    simp [apply_promo_code, hfind, hissued, hfresh]
  have h2 : find_by_code c (mark_used c t1 u1 st) =
      some { r with is_used := true, used_at := some t1, used_by := u1 } := by
    rw [find_by_code_mark_used, hfind]
    rfl
  constructor
  · rw [h1]
  · rw [h1]
    simp [apply_promo_code, h2, hissued]

/-- Witness for the amended C10 on `freshStore`. -/
theorem serialized_redeems_one_success_witness :
    (apply_promo_code "DCAAAAAAAA" (some "a1") 3 freshStore).1.1 = true ∧
      (apply_promo_code "DCAAAAAAAA" (some "a2") 4
          (apply_promo_code "DCAAAAAAAA" (some "a1") 3 freshStore).2).1 =
        (false, MSG_ALREADY_USED) :=
  serialized_redeems_one_success "DCAAAAAAAA" (some "a1") (some "a2") 3 4
    freshStore freshRow (by decide) (by decide) (by decide)
